import Mathlib

/-
Shallow embedding of the voxel-field and surface-extraction core of
`src/main.rs` (the `VoxelGrid` type and the `create_mesh` function).

Modelling conventions:

* `f32` sample values are modelled by `F32`: either NaN or an exact finite
  value (a rational).  The core only ever compares samples (`>`, and the
  spec's `≤` / `<`), so no rounding of sample arithmetic has to be
  modelled; comparisons involving NaN are `false`, as in IEEE-754.
  Infinities are not needed by any property studied here and are omitted.
* Vertex coordinates are rationals.  All coordinate arithmetic performed by
  `create_mesh` is of the form `cell_index_component as f32 + (-(size/2.0))`
  and `· - 1.0`, which is exact in `f32` for every `size < 2^24`, so `ℚ`
  is a faithful carrier for it.
* `u32` arithmetic is modelled on `Nat` with an explicit `% 2 ^ 32`
  wherever the Rust code multiplies or adds `u32` values or casts a wider
  value down to `u32` (release-profile wrapping semantics; debug builds
  panic at exactly the same inputs, which leads to the same verdicts for
  the properties that depend on overflow).
* A Rust panic (out-of-bounds `Vec` indexing) is modelled by `Option`:
  `none` is a panic.
-/

namespace Marchy

/-- Model of an `f32` sample: NaN, or an exact finite value. -/
inductive F32 where
  | nan : F32
  | finite : ℚ → F32
deriving DecidableEq

/-- IEEE `>` on samples: any comparison involving NaN is `false`.
This is the test `val > limit` used by `create_mesh`. -/
def f32gt : F32 → F32 → Bool
  | F32.finite a, F32.finite b => a > b
  | _, _ => false

/-- IEEE `<` on samples: any comparison involving NaN is `false`. -/
def f32lt : F32 → F32 → Bool
  | F32.finite a, F32.finite b => a < b
  | _, _ => false

/-- IEEE `≤` on samples: any comparison involving NaN is `false`.
This is the comparison the specification's wording (`value ≤ threshold`)
denotes; the code itself uses the negation of `f32gt`. -/
def f32le : F32 → F32 → Bool
  | F32.finite a, F32.finite b => a ≤ b
  | _, _ => false

/-- `struct VoxelGrid { size: u32, data: Vec<f32> }`.  `size` is carried as
a `Nat`; the `u32` range restriction and the `u32` wrapping of all index
arithmetic appear explicitly where the source computes with it. -/
structure VoxelGrid where
  size : Nat
  data : List F32
deriving DecidableEq

/-- `VoxelGrid::new`: `vec![0.0; (size * size * size) as usize]`.  The
product is computed in `u32`, hence the `% 2 ^ 32` (release wrap; a debug
build panics on the same overflowing inputs). -/
def VoxelGrid.new (size : Nat) : VoxelGrid :=
  { size := size
    data := List.replicate (size * size * size % 2 ^ 32) (F32.finite 0) }

/-- The flattened index `z * size * size + y * size + x` computed by
`VoxelGrid::read`, in `u32` arithmetic (a single trailing `% 2 ^ 32` equals
wrapping every intermediate `u32` operation). -/
def flatIdx (size x y z : Nat) : Nat :=
  (z * size * size + y * size + x) % 2 ^ 32

/-- `VoxelGrid::read`: `self.data[idx as usize]`.  `none` models the panic
of out-of-bounds `Vec` indexing. -/
def VoxelGrid.read (vox : VoxelGrid) (x y z : Nat) : Option F32 :=
  vox.data.get? (flatIdx vox.size x y z)

/-- In-place indexed rewrite of a list: the loop
`for i in 0..len { data[i] = f(i, data[i]) }`, with `i` starting at `n`. -/
def mapIdxF (f : Nat → F32 → F32) : Nat → List F32 → List F32
  | _, [] => []
  | n, v :: rest => f n v :: mapIdxF f (n + 1) rest

/-- `VoxelGrid::map` (the spec's `Fill`): every sample is replaced by
`func(x, y, z, previous)` where `x = i % size`, `y = (i / size) % size`,
`z = (i / (size * size)) % size`, all in `u32` arithmetic (`i as u32` is
`i % 2 ^ 32`, and the product `size * size` wraps). -/
def VoxelGrid.map (vox : VoxelGrid) (f : Nat → Nat → Nat → F32 → F32) : VoxelGrid :=
  { vox with
    data := mapIdxF (fun i v =>
      f (i % 2 ^ 32 % vox.size)
        (i % 2 ^ 32 / vox.size % vox.size)
        (i % 2 ^ 32 / (vox.size * vox.size % 2 ^ 32) % vox.size) v) 0 vox.data }

/-- A 3-component vertex position (exact `f32` values, see header note). -/
structure Vec3 where
  x : ℚ
  y : ℚ
  z : ℚ
deriving DecidableEq

/-- Componentwise subtraction of position vectors. -/
def vsub (a b : Vec3) : Vec3 :=
  ⟨a.x - b.x, a.y - b.y, a.z - b.z⟩

/-- Cross product, used to compute a triangle's (unnormalised) normal. -/
def cross (a b : Vec3) : Vec3 :=
  ⟨a.y * b.z - a.z * b.y, a.z * b.x - a.x * b.z, a.x * b.y - a.y * b.x⟩

/-- Dot product. -/
def dot (a b : Vec3) : ℚ :=
  a.x * b.x + a.y * b.y + a.z * b.z

/-- Unnormalised normal of the triangle `(v0, v1, v2)` with counter-clockwise
winding convention: `(v1 - v0) × (v2 - v0)`. -/
def triNormal (v0 v1 v2 : Vec3) : Vec3 :=
  cross (vsub v1 v0) (vsub v2 v0)

/-- Centroid of a triangle. -/
def centroid3 (v0 v1 v2 : Vec3) : Vec3 :=
  ⟨(v0.x + v1.x + v2.x) / 3, (v0.y + v1.y + v2.y) / 3, (v0.z + v1.z + v2.z) / 3⟩

set_option maxHeartbeats 1000000 in
/-- The 36 vertex positions `create_mesh` pushes for the cell with flattened
index `i`: six faces, two triangles each, in source order (Front, Back, Top,
Bottom, Left, Right).  `x = (i % size) as f32 + xo` etc., with
`xo = yo = zo = -(size as f32 / 2.0)`; `size * size` in the `z` coordinate
is a `u32` product. -/
def cubeVerts (size i : Nat) : List Vec3 :=
  let xo : ℚ := -((size : ℚ) / 2)
  let x : ℚ := ((i % size : Nat) : ℚ) + xo
  let y : ℚ := ((i / size % size : Nat) : ℚ) + xo
  let z : ℚ := ((i / (size * size % 2 ^ 32) % size : Nat) : ℚ) + xo
  [⟨x - 1, y, z⟩, ⟨x - 1, y - 1, z⟩, ⟨x, y - 1, z⟩,
   ⟨x - 1, y, z⟩, ⟨x, y - 1, z⟩, ⟨x, y, z⟩,
   ⟨x, y, z - 1⟩, ⟨x, y - 1, z - 1⟩, ⟨x - 1, y - 1, z - 1⟩,
   ⟨x, y, z - 1⟩, ⟨x - 1, y - 1, z - 1⟩, ⟨x - 1, y, z - 1⟩,
   ⟨x - 1, y, z⟩, ⟨x, y, z⟩, ⟨x, y, z - 1⟩,
   ⟨x - 1, y, z⟩, ⟨x, y, z - 1⟩, ⟨x - 1, y, z - 1⟩,
   ⟨x, y, z - 1⟩, ⟨x, y, z⟩, ⟨x - 1, y - 1, z⟩,
   ⟨x, y - 1, z - 1⟩, ⟨x - 1, y - 1, z⟩, ⟨x - 1, y - 1, z - 1⟩,
   ⟨x - 1, y, z - 1⟩, ⟨x - 1, y - 1, z - 1⟩, ⟨x - 1, y - 1, z⟩,
   ⟨x - 1, y, z - 1⟩, ⟨x - 1, y - 1, z⟩, ⟨x - 1, y, z⟩,
   ⟨x, y, z⟩, ⟨x, y - 1, z - 1⟩, ⟨x, y, z - 1⟩,
   ⟨x, y, z⟩, ⟨x, y - 1, z⟩, ⟨x, y - 1, z - 1⟩]

/-- Centre of the unit cube emitted for cell `i`: the cube spans
`[x-1, x] × [y-1, y] × [z-1, z]`, so its centre is the anchor corner minus
`1/2` on every axis. -/
def cubeCenter (size i : Nat) : Vec3 :=
  let xo : ℚ := -((size : ℚ) / 2)
  let x : ℚ := ((i % size : Nat) : ℚ) + xo
  let y : ℚ := ((i / size % size : Nat) : ℚ) + xo
  let z : ℚ := ((i / (size * size % 2 ^ 32) % size : Nat) : ℚ) + xo
  ⟨x - 1 / 2, y - 1 / 2, z - 1 / 2⟩

/-- Geometry contributed by one loop iteration of `create_mesh`: nothing if
`val > limit` (the `continue`), the 36 cube vertices otherwise. -/
def cellVerts (size : Nat) (val : F32) (limit : F32) (i : Nat) : List Vec3 :=
  if f32gt val limit then [] else cubeVerts size i

/-- `vol = size * size * size` as computed in `u32` by `create_mesh`. -/
def vol (vox : VoxelGrid) : Nat :=
  vox.size * vox.size * vox.size % 2 ^ 32

/-- The membership test of `create_mesh`: cell `i` contributes geometry iff
its sample is not greater than `limit` (the loop `continue`s exactly when
`val > limit`). -/
def qualifies (vox : VoxelGrid) (limit : F32) (i : Nat) : Bool :=
  !f32gt (vox.data.getD i (F32.finite 0)) limit

/-- The vertex buffer built by `create_mesh`'s loop `for i in 0..vol`,
pushing `cellVerts` for each cell in order.  The `getD` default is never
consulted when the loop's accesses are in bounds (see `create_mesh`). -/
def meshVerts (vox : VoxelGrid) (limit : F32) : List Vec3 :=
  (List.range (vol vox)).foldl
    (fun acc i => acc ++ cellVerts vox.size (vox.data.getD i (F32.finite 0)) limit i) []

/-- The index buffer `(0..=len as u32).collect()`: the vertex count is cast
to `u32` (wrapping) and the inclusive range `0, 1, …, len` is collected. -/
def meshIndices (verts : List Vec3) : List Nat :=
  List.range (verts.length % 2 ^ 32 + 1)

/-- Extraction output: vertex positions plus the index buffer. -/
structure MeshOut where
  verts : List Vec3
  indices : List Nat
deriving DecidableEq

/-- `create_mesh`: `none` models the panic the loop hits when it indexes
`vox.data[i]` with `i ≥ data.len()` (which happens exactly when
`vol > data.len()`, since `i` ranges over `0..vol` from `0` upward). -/
def create_mesh (vox : VoxelGrid) (limit : F32) : Option MeshOut :=
  if vol vox ≤ vox.data.length then
    let verts := meshVerts vox limit
    some { verts := verts, indices := meshIndices verts }
  else none

/-- Concrete generator used in checks: `value = x + 2·y + 4·z`. -/
def genXYZ : Nat → Nat → Nat → F32 → F32 :=
  fun x y z _ => F32.finite ((x : ℚ) + 2 * (y : ℚ) + 4 * (z : ℚ))

/-- Concrete generator used in checks: `value = x + 10·y + 100·z`. -/
def genLinear : Nat → Nat → Nat → F32 → F32 :=
  fun x y z _ => F32.finite ((x : ℚ) + 10 * (y : ℚ) + 100 * (z : ℚ))

/-- Concrete constant generator used in checks. -/
def genConst7 : Nat → Nat → Nat → F32 → F32 :=
  fun _ _ _ _ => F32.finite 7

/-! ### Shared helper lemmas -/

/-- Accumulating a list-valued function with `foldl (· ++ ·)` is `flatMap`. -/
lemma foldl_append_eq_flatMap (g : Nat → List Vec3) :
    ∀ (l : List Nat) (acc : List Vec3),
      l.foldl (fun a i => a ++ g i) acc = acc ++ l.flatMap g := by
  intro l
  induction l with
  | nil => intro acc; simp
  | cons i rest ih => intro acc; simp [List.foldl_cons, ih]

/-- The vertex buffer is the concatenation, in cell order, of each cell's
contribution. -/
lemma meshVerts_eq_flatMap (vox : VoxelGrid) (limit : F32) :
    meshVerts vox limit = (List.range (vol vox)).flatMap
      (fun i => cellVerts vox.size (vox.data.getD i (F32.finite 0)) limit i) := by
  simpa only [List.nil_append] using foldl_append_eq_flatMap
    (fun i => cellVerts vox.size (vox.data.getD i (F32.finite 0)) limit i)
    (List.range (vol vox)) []

/-- Every cell's cube is 36 vertex positions. -/
lemma cubeVerts_length (size i : Nat) : (cubeVerts size i).length = 36 := rfl

/-- A cell contributes 36 positions when it qualifies and none otherwise. -/
lemma cellVerts_length (s : Nat) (v limit : F32) (i : Nat) :
    (cellVerts s v limit i).length = if f32gt v limit then 0 else 36 := by
  unfold cellVerts
  by_cases h : f32gt v limit <;> simp [h, cubeVerts_length]

/-- Length of the vertex buffer in terms of the qualifying-cell count. -/
lemma meshVerts_length (vox : VoxelGrid) (limit : F32) :
    (meshVerts vox limit).length =
      36 * (List.range (vol vox)).countP (qualifies vox limit) := by
  rw [meshVerts_eq_flatMap]
  generalize List.range (vol vox) = l
  induction l with
  | nil => simp
  | cons i rest ih =>
      by_cases h : f32gt (vox.data.getD i (F32.finite 0)) limit = true
      · have hq : qualifies vox limit i = false := by
          simp only [qualifies, h, Bool.not_true]
        rw [List.flatMap_cons, List.length_append, ih, cellVerts_length, if_pos h,
          List.countP_cons, hq]
        simp
      · have h' : f32gt (vox.data.getD i (F32.finite 0)) limit = false := by
          cases hb : f32gt (vox.data.getD i (F32.finite 0)) limit
          · rfl
          · exact absurd hb h
        have hq : qualifies vox limit i = true := by
          simp only [qualifies, h', Bool.not_false]
        rw [List.flatMap_cons, List.length_append, ih, cellVerts_length, if_neg h,
          List.countP_cons, hq]
        simp [Nat.mul_add]
        omega

/-- `mapIdxF` preserves length. -/
lemma mapIdxF_length (f : Nat → F32 → F32) :
    ∀ (n : Nat) (l : List F32), (mapIdxF f n l).length = l.length := by
  intro n l
  induction l generalizing n with
  | nil => rfl
  | cons v rest ih => simp [mapIdxF, ih]

/-- Element lookup after `mapIdxF`. -/
lemma mapIdxF_get? (f : Nat → F32 → F32) :
    ∀ (n : Nat) (l : List F32) (k : Nat),
      (mapIdxF f n l).get? k = (l.get? k).map (f (n + k)) := by
  intro n l
  induction l generalizing n with
  | nil => intro k; rfl
  | cons v rest ih =>
      intro k
      cases k with
      | zero => rfl
      | succ k => simpa [mapIdxF, Nat.add_assoc, Nat.add_comm 1 k] using ih (n + 1) k

/-- Element lookup in a `replicate`. -/
lemma replicate_get? (a : F32) :
    ∀ (n k : Nat), (List.replicate n a).get? k = if k < n then some a else none := by
  intro n
  induction n with
  | zero => intro k; simp
  | succ n ih =>
      intro k
      cases k with
      | zero => simp [List.replicate]
      | succ k => simpa [List.replicate, Nat.succ_lt_succ_iff] using ih k

/-- `getD` on a `replicate` with the replicated value as fallback. -/
lemma replicate_getD (a : F32) (n k : Nat) :
    (List.replicate n a).getD k a = a := by
  unfold List.getD
  rw [replicate_get?]
  by_cases h : k < n <;> simp [h]

/-- In-range coordinates flatten below `size³`. -/
lemma flat_lt (s x y z : Nat) (hx : x < s) (hy : y < s) (hz : z < s) :
    z * s * s + y * s + x < s * s * s := by
  have h1 : z * s + y + 1 ≤ s * s := by
    have hz' : z + 1 ≤ s := hz
    have hy' : y + 1 ≤ s := hy
    calc z * s + y + 1 ≤ z * s + s := by omega
      _ = (z + 1) * s := by ring
      _ ≤ s * s := Nat.mul_le_mul_right s hz'
  calc z * s * s + y * s + x < z * s * s + y * s + s := by omega
    _ = (z * s + y + 1) * s := by ring
    _ ≤ s * s * s := Nat.mul_le_mul_right s h1

/-- First coordinate recovered from a flattened index. -/
lemma flat_mod (s x y z : Nat) (hx : x < s) :
    (z * s * s + y * s + x) % s = x := by
  have h : z * s * s + y * s + x = x + (z * s + y) * s := by ring
  rw [h, Nat.add_mul_mod_self_right, Nat.mod_eq_of_lt hx]

/-- Second coordinate recovered from a flattened index. -/
lemma flat_div_mod (s x y z : Nat) (hx : x < s) (hy : y < s) :
    (z * s * s + y * s + x) / s % s = y := by
  have hs : 0 < s := lt_of_le_of_lt (Nat.zero_le x) hx
  have h : z * s * s + y * s + x = x + (y + z * s) * s := by ring
  rw [h, Nat.add_mul_div_right x (y + z * s) hs, Nat.div_eq_of_lt hx, Nat.zero_add,
    Nat.add_mul_mod_self_right, Nat.mod_eq_of_lt hy]

/-- Third coordinate recovered from a flattened index. -/
lemma flat_div_sq (s x y z : Nat) (hx : x < s) (hy : y < s) (hz : z < s) :
    (z * s * s + y * s + x) / (s * s) % s = z := by
  have hs : 0 < s := lt_of_le_of_lt (Nat.zero_le x) hx
  have hyx : y * s + x < s * s := by
    have h1 : (y + 1) * s ≤ s * s := Nat.mul_le_mul_right s hy
    calc y * s + x < y * s + s := by omega
      _ = (y + 1) * s := by ring
      _ ≤ s * s := h1
  have h : z * s * s + y * s + x = (y * s + x) + z * (s * s) := by ring
  rw [h, Nat.add_mul_div_right _ _ (Nat.mul_pos hs hs), Nat.div_eq_of_lt hyx,
    Nat.zero_add, Nat.mod_eq_of_lt hz]

/-- Any index below `size³` is the flattening of its own canonical
coordinates. -/
lemma unflatten_eq (s n : Nat) (h : n < s * s * s) :
    n / (s * s) % s * s * s + n / s % s * s + n % s = n := by
  have hs : 0 < s := by
    rcases Nat.eq_zero_or_pos s with h0 | h0
    · subst h0; omega
    · exact h0
  have hdivlt : n / (s * s) < s := by
    apply Nat.div_lt_of_lt_mul
    calc n < s * s * s := h
      _ = s * s * s := rfl
  have e1 : n / (s * s) % s = n / (s * s) := Nat.mod_eq_of_lt hdivlt
  have e2 : n / s % s = n % (s * s) / s := (Nat.mod_mul_right_div_self n s s).symm
  have e3 : n % s = n % (s * s) % s := (Nat.mod_mod_of_dvd n ⟨s, rfl⟩).symm
  calc n / (s * s) % s * s * s + n / s % s * s + n % s
      = s * s * (n / (s * s)) + (s * (n % (s * s) / s) + n % (s * s) % s) := by
        rw [e1, e2, e3]; ring
    _ = s * s * (n / (s * s)) + n % (s * s) := by rw [Nat.div_add_mod]
    _ = n := Nat.div_add_mod n (s * s)

/-! ### Claim theorems -/

/-- C1 (amended): a cell contributes geometry to the extraction output if
and only if its sample is NOT greater than the threshold — the loop skips
exactly the cells with `val > limit`.  For finite (non-NaN) samples this
test coincides with `value ≤ threshold`, so in particular a value exactly
equal to the threshold qualifies; a NaN sample, however, also qualifies
(see C3), which is the one point where the claim's `iff value ≤ threshold`
wording fails. -/
theorem C1_contributes_iff_not_gt :
    (∀ (vox : VoxelGrid) (limit : F32),
        meshVerts vox limit = (List.range (vol vox)).flatMap
          (fun i => cellVerts vox.size (vox.data.getD i (F32.finite 0)) limit i)) ∧
    (∀ (s : Nat) (v limit : F32) (i : Nat),
        cellVerts s v limit i ≠ [] ↔ f32gt v limit = false) ∧
    (∀ a b : ℚ, f32gt (F32.finite a) (F32.finite b) = false ↔ a ≤ b) := by
  refine ⟨meshVerts_eq_flatMap, ?_, ?_⟩
  · intro s v limit i
    unfold cellVerts
    by_cases h : f32gt v limit = true
    · simp [h]
    · have h' : f32gt v limit = false := by
        cases hb : f32gt v limit
        · rfl
        · exact absurd hb h
      simp [h', cubeVerts]
  · intro a b
    simp [f32gt]

/-- C1, counterexample to the claim as stated: on a one-cell field holding
NaN with threshold `0.0`, the cell contributes its full 36 vertices even
though `NaN ≤ 0.0` is false in IEEE ordering, so "contributes iff value ≤
threshold" fails. -/
theorem C1_nan_breaks_le_iff :
    (meshVerts ⟨1, [F32.nan]⟩ (F32.finite 0)).length = 36 ∧
    f32le F32.nan (F32.finite 0) = false := by
  exact ⟨rfl, rfl⟩

/-- C3 (amended): a NaN sample QUALIFIES — `NaN > limit` is false, so the
loop's `continue` is not taken and the cell contributes its full cube of
36 vertices.  Non-finite samples are not an error, but they are included,
not excluded. -/
theorem C3_nan_qualifies (s : Nat) (limit : F32) (i : Nat) :
    f32gt F32.nan limit = false ∧
    cellVerts s F32.nan limit i = cubeVerts s i ∧
    (cubeVerts s i).length = 36 :=
  ⟨rfl, rfl, cubeVerts_length s i⟩

/-- C3, counterexample to the claim as stated: a one-cell field holding NaN
produces a nonempty vertex buffer under threshold `5.0`, so a NaN cell does
NOT contribute zero vertices. -/
theorem C3_nan_contributes :
    (meshVerts ⟨1, [F32.nan]⟩ (F32.finite 5)).length ≠ 0 := by
  decide

/-- C5 (amended): the vertex buffer holds exactly `36 ×` the number of
cells whose sample is not greater than the threshold (the code's
qualifying test); non-qualifying cells contribute nothing.  For NaN-free
fields this count is the count of cells with `value ≤ threshold`. -/
theorem C5_vertex_count (vox : VoxelGrid) (limit : F32) :
    (meshVerts vox limit).length =
      36 * (List.range (vol vox)).countP (qualifies vox limit) :=
  meshVerts_length vox limit

/-- C5, counterexample to the claim as stated: with a NaN sample the vertex
count is NOT `36 ×` the number of cells with `value ≤ threshold` (the NaN
cell contributes 36 vertices but does not satisfy `≤`). -/
theorem C5_nan_count_mismatch :
    (meshVerts ⟨1, [F32.nan]⟩ (F32.finite 3)).length ≠
      36 * (List.range (vol ⟨1, [F32.nan]⟩)).countP
        (fun i => f32le ((⟨1, [F32.nan]⟩ : VoxelGrid).data.getD i (F32.finite 0))
          (F32.finite 3)) := by
  decide

/-- C8 (confirmed): raising the threshold is monotonic — any cell
qualifying under `t1` also qualifies under every `t2 > t1`. -/
theorem C8_threshold_monotone (vox : VoxelGrid) (t1 t2 : F32) (i : Nat)
    (hlt : f32lt t1 t2 = true) (hq : qualifies vox t1 i = true) :
    qualifies vox t2 i = true := by
  unfold qualifies at hq ⊢
  rcases hv : vox.data.getD i (F32.finite 0) with _ | q
  · rcases t2 with _ | b <;> rfl
  · rw [hv] at hq
    rcases t1 with _ | a
    · simp [f32lt] at hlt
    · rcases t2 with _ | b
      · simp [f32lt] at hlt
      · simp only [f32gt, f32lt, Bool.not_eq_true', decide_eq_false_iff_not,
          decide_eq_true_eq] at hq hlt ⊢
        intro hqb
        exact hq (lt_trans hlt hqb)

/-- C8 witness at a concrete field and threshold pair. -/
theorem C8_threshold_monotone_witness :
    f32lt (F32.finite 1) (F32.finite 2) = true ∧
    qualifies ⟨1, [F32.finite 1]⟩ (F32.finite 1) 0 = true ∧
    qualifies ⟨1, [F32.finite 1]⟩ (F32.finite 2) 0 = true :=
  ⟨by decide, by decide,
    C8_threshold_monotone ⟨1, [F32.finite 1]⟩ (F32.finite 1) (F32.finite 2) 0
      (by decide) (by decide)⟩

/-- C9 (amended): for `1 ≤ size` with `size³ < 2^32` (no `u32` overflow in
the volume product), construction yields `size³` samples, all `0.0`.  For
`size³ ≥ 2^32` the `u32` product wraps (or panics in a debug build), so the
claim's unrestricted `size ≥ 1` fails — see the counterexample. -/
theorem C9_new_field (size : Nat) (hpos : 1 ≤ size)
    (hov : size * size * size < 2 ^ 32) :
    (VoxelGrid.new size).data.length = size * size * size ∧
    ∀ v ∈ (VoxelGrid.new size).data, v = F32.finite 0 := by
  refine ⟨?_, ?_⟩
  · simp only [VoxelGrid.new, List.length_replicate]
    exact Nat.mod_eq_of_lt hov
  · intro v hv
    exact List.eq_of_mem_replicate hv

/-- C9 witness at `size = 3`. -/
theorem C9_new_field_witness :
    1 ≤ 3 ∧ 3 * 3 * 3 < 2 ^ 32 ∧ (VoxelGrid.new 3).data.length = 3 * 3 * 3 :=
  ⟨by decide, by decide, (C9_new_field 3 (by decide) (by decide)).1⟩

/-- C9, counterexample to the claim as stated: at `size = 1626` the `u32`
product `size³` overflows, so the constructed data length is
`1626³ mod 2^32 = 3975080`, not `1626³` (a debug build panics instead —
either way no field of `size³` zeros is produced). -/
theorem C9_overflow_length :
    1 ≤ 1626 ∧ (VoxelGrid.new 1626).data.length ≠ 1626 * 1626 * 1626 := by
  refine ⟨by decide, ?_⟩
  simp only [VoxelGrid.new, List.length_replicate]
  decide

/-- C10 (confirmed): extraction of a `size = 0` field deterministically
succeeds with an empty vertex buffer (the index buffer is the documented
degenerate `[0]`, the off-by-one range at vertex count `0`). -/
theorem C10_degenerate_empty (vox : VoxelGrid) (limit : F32)
    (h : vox.size = 0) :
    create_mesh vox limit = some { verts := [], indices := [0] } := by
  have hvol : vol vox = 0 := by simp [vol, h]
  have hverts : meshVerts vox limit = [] := by
    unfold meshVerts
    rw [hvol]
    rfl
  unfold create_mesh
  rw [hvol, hverts]
  simp [meshIndices]
  rfl

/-- C10 witness at the empty grid. -/
theorem C10_degenerate_empty_witness :
    (⟨0, []⟩ : VoxelGrid).size = 0 ∧
    create_mesh ⟨0, []⟩ (F32.finite 3) = some { verts := [], indices := [0] } :=
  ⟨rfl, C10_degenerate_empty ⟨0, []⟩ (F32.finite 3) rfl⟩

/-- C4 (amended): `read` fails (panics) iff the flattened index
`z·size² + y·size + x` (computed with `u32` wrap) reaches past the data,
i.e. iff it is `≥ size³`; an out-of-range coordinate triple whose flattened
index stays below `size³` does NOT fail — it silently returns the sample of
the in-range cell with those flattened coordinates. -/
theorem C4_read_flat_aliasing (vox : VoxelGrid) (x y z : Nat)
    (hlen : vox.data.length = vox.size * vox.size * vox.size)
    (hov : vox.size * vox.size * vox.size < 2 ^ 32) :
    (vox.read x y z = none ↔
      vox.size * vox.size * vox.size ≤ flatIdx vox.size x y z) ∧
    (flatIdx vox.size x y z < vox.size * vox.size * vox.size →
      flatIdx vox.size x y z % vox.size < vox.size ∧
      flatIdx vox.size x y z / vox.size % vox.size < vox.size ∧
      flatIdx vox.size x y z / (vox.size * vox.size) % vox.size < vox.size ∧
      vox.read x y z =
        vox.read (flatIdx vox.size x y z % vox.size)
          (flatIdx vox.size x y z / vox.size % vox.size)
          (flatIdx vox.size x y z / (vox.size * vox.size) % vox.size)) := by
  constructor
  · unfold VoxelGrid.read
    rw [List.get?_eq_none, hlen]
  · intro hin
    have hs : 0 < vox.size := by
      rcases Nat.eq_zero_or_pos vox.size with h0 | h0
      · rw [h0] at hin; omega
      · exact h0
    refine ⟨Nat.mod_lt _ hs, Nat.mod_lt _ hs, Nat.mod_lt _ hs, ?_⟩
    unfold VoxelGrid.read
    have hkey : flatIdx vox.size (flatIdx vox.size x y z % vox.size)
        (flatIdx vox.size x y z / vox.size % vox.size)
        (flatIdx vox.size x y z / (vox.size * vox.size) % vox.size)
        = flatIdx vox.size x y z := by
      generalize hi : flatIdx vox.size x y z = n at hin
      have h32 : n < 2 ^ 32 := lt_trans hin hov
      unfold flatIdx
      rw [unflatten_eq vox.size n hin, Nat.mod_eq_of_lt h32]
    rw [hkey]

/-- C4 witness: on a well-formed `size = 2` grid the read at the
out-of-range triple `(2, 0, 0)` does not fail and aliases the in-range
cell with the same flattened index. -/
theorem C4_read_flat_aliasing_witness :
    (VoxelGrid.new 2).data.length =
      (VoxelGrid.new 2).size * (VoxelGrid.new 2).size * (VoxelGrid.new 2).size ∧
    (VoxelGrid.new 2).size * (VoxelGrid.new 2).size * (VoxelGrid.new 2).size < 2 ^ 32 ∧
    flatIdx (VoxelGrid.new 2).size 2 0 0 <
      (VoxelGrid.new 2).size * (VoxelGrid.new 2).size * (VoxelGrid.new 2).size ∧
    (VoxelGrid.new 2).read 2 0 0 =
      (VoxelGrid.new 2).read
        (flatIdx (VoxelGrid.new 2).size 2 0 0 % (VoxelGrid.new 2).size)
        (flatIdx (VoxelGrid.new 2).size 2 0 0 / (VoxelGrid.new 2).size % (VoxelGrid.new 2).size)
        (flatIdx (VoxelGrid.new 2).size 2 0 0 / ((VoxelGrid.new 2).size * (VoxelGrid.new 2).size) % (VoxelGrid.new 2).size) :=
  ⟨by decide, by decide, by decide,
    ((C4_read_flat_aliasing (VoxelGrid.new 2) 2 0 0 (by decide) (by decide)).2
      (by decide)).2.2.2⟩

/-- C4, counterexample to the claim as stated: on a filled `size = 2` grid,
`read(2, 0, 0)` — with `x = 2` out of `[0, 2)` — does not fail: it returns
the sample of the different in-range cell `(0, 1, 0)` (both flatten to
index 2). -/
theorem C4_read_out_of_range_no_failure :
    ¬ 2 < ((VoxelGrid.new 2).map genXYZ).size ∧
    (((VoxelGrid.new 2).map genXYZ).read 2 0 0).isSome = true ∧
    ((VoxelGrid.new 2).map genXYZ).read 2 0 0 =
      ((VoxelGrid.new 2).map genXYZ).read 0 1 0 :=
  ⟨by decide, rfl, rfl⟩

/-- C7 (amended): for every `size` with `size³ < 2^32` (no `u32` overflow),
filling a freshly constructed field and reading any in-range cell yields
`generator(x, y, z, 0.0)` — the fill is a total rewrite of the
zero-initialised data and the generator receives the cell's own
coordinates.  For `size³ ≥ 2^32` the claim fails (see the counterexample). -/
theorem C7_fill_then_read (size : Nat) (g : Nat → Nat → Nat → F32 → F32)
    (x y z : Nat) (hov : size * size * size < 2 ^ 32)
    (hx : x < size) (hy : y < size) (hz : z < size) :
    ((VoxelGrid.new size).map g).read x y z = some (g x y z (F32.finite 0)) := by
  have hs : 0 < size := lt_of_le_of_lt (Nat.zero_le x) hx
  have hflt : z * size * size + y * size + x < size * size * size :=
    flat_lt size x y z hx hy hz
  have h32 : z * size * size + y * size + x < 2 ^ 32 := lt_trans hflt hov
  have hsq : size * size % 2 ^ 32 = size * size := by
    apply Nat.mod_eq_of_lt
    calc size * size = size * size * 1 := by ring
      _ ≤ size * size * size := Nat.mul_le_mul_left _ hs
      _ < 2 ^ 32 := hov
  have hvol : size * size * size % 2 ^ 32 = size * size * size :=
    Nat.mod_eq_of_lt hov
  have hidx : flatIdx size x y z = z * size * size + y * size + x := by
    unfold flatIdx
    exact Nat.mod_eq_of_lt h32
  show (mapIdxF _ 0 (VoxelGrid.new size).data).get? (flatIdx size x y z) = _
  rw [hidx, mapIdxF_get?]
  show ((List.replicate (size * size * size % 2 ^ 32) (F32.finite 0)).get? _).map _ = _
  rw [hvol, replicate_get?, if_pos hflt]
  show some (g _ _ _ (F32.finite 0)) = _
  rw [Nat.zero_add, Nat.mod_eq_of_lt h32]
  simp only [VoxelGrid.new]
  rw [hsq, flat_mod size x y z hx, flat_div_mod size x y z hx hy,
    flat_div_sq size x y z hx hy hz]

/-- C7 witness: `size = 2`, a linear generator, cell `(1, 0, 1)`. -/
theorem C7_fill_then_read_witness :
    2 * 2 * 2 < 2 ^ 32 ∧ 1 < 2 ∧ 0 < 2 ∧
    ((VoxelGrid.new 2).map genLinear).read 1 0 1 =
      some (genLinear 1 0 1 (F32.finite 0)) :=
  ⟨by decide, by decide, by decide,
    C7_fill_then_read 2 genLinear 1 0 1 (by decide) (by decide) (by decide) (by decide)⟩

/-- C7, counterexample to the claim as stated: at `size = 1626` the `u32`
volume product wraps, the constructed data is shorter than `size³`, and
reading the in-range cell `(0, 0, 2)` after a constant fill panics
(out-of-bounds index 5287752 into 3975080 samples) instead of returning
the generator's value `7.0`. -/
theorem C7_overflow_read_fails :
    ((VoxelGrid.new 1626).map genConst7).read 0 0 2 = none ∧
    (none : Option F32) ≠ some (genConst7 0 0 2 (F32.finite 0)) := by
  constructor
  · show (mapIdxF _ 0 (VoxelGrid.new 1626).data).get? (flatIdx 1626 0 0 2) = none
    rw [List.get?_eq_none, mapIdxF_length]
    show (List.replicate (1626 * 1626 * 1626 % 2 ^ 32) (F32.finite 0)).length ≤ _
    rw [List.length_replicate]
    decide
  · simp

/-- C6 (amended): whenever the vertex count `N` fits in `u32`
(`N < 2^32`), the produced index buffer is exactly the sequence
`0, 1, …, N` — one entry more than there are vertices, ending in the
out-of-range index `N` (the source's off-by-one inclusive range).  The
`len as u32` cast truncates counts `≥ 2^32` (see the counterexample). -/
theorem C6_indices_inclusive_range (vs : List Vec3) (h : vs.length < 2 ^ 32) :
    (meshIndices vs).length = vs.length + 1 ∧
    (∀ k, k ≤ vs.length → (meshIndices vs).get? k = some k) ∧
    (meshIndices vs).getLast? = some vs.length := by
  have hm : vs.length % 2 ^ 32 = vs.length := Nat.mod_eq_of_lt h
  unfold meshIndices
  rw [hm]
  refine ⟨List.length_range _, ?_, ?_⟩
  · intro k hk
    exact List.get?_range (Nat.lt_succ_of_le hk)
  · rw [List.range_succ]
    exact List.getLast?_concat _

/-- C6 witness on the 36-vertex buffer of a one-cell extraction. -/
theorem C6_indices_inclusive_range_witness :
    (meshVerts (VoxelGrid.new 1) (F32.finite 0)).length < 2 ^ 32 ∧
    (meshIndices (meshVerts (VoxelGrid.new 1) (F32.finite 0))).length =
      (meshVerts (VoxelGrid.new 1) (F32.finite 0)).length + 1 ∧
    (meshIndices (meshVerts (VoxelGrid.new 1) (F32.finite 0))).getLast? =
      some (meshVerts (VoxelGrid.new 1) (F32.finite 0)).length :=
  ⟨by decide,
    (C6_indices_inclusive_range (meshVerts (VoxelGrid.new 1) (F32.finite 0)) (by decide)).1,
    (C6_indices_inclusive_range (meshVerts (VoxelGrid.new 1) (F32.finite 0)) (by decide)).2.2⟩

/-- C6, counterexample to the claim as stated: a `size = 493` all-zero
field under threshold `0.0` qualifies every cell, giving
`36 × 493³ = 4313633652 ≥ 2^32` vertices; `len as u32` truncates, so the
emitted index buffer has `4313633652 mod 2^32 + 1 = 18666357` entries —
not the `N + 1`-entry sequence `0, 1, …, N` with `N` the vertex count. -/
theorem C6_u32_truncation :
    create_mesh (VoxelGrid.new 493) (F32.finite 0) =
      some { verts := meshVerts (VoxelGrid.new 493) (F32.finite 0),
             indices := meshIndices (meshVerts (VoxelGrid.new 493) (F32.finite 0)) } ∧
    (meshVerts (VoxelGrid.new 493) (F32.finite 0)).length = 4313633652 ∧
    (meshIndices (meshVerts (VoxelGrid.new 493) (F32.finite 0))).length = 18666357 ∧
    (18666357 : Nat) ≠ 4313633652 + 1 := by
  have hvol : vol (VoxelGrid.new 493) = 119823157 := rfl
  have hlen : (VoxelGrid.new 493).data.length = 119823157 := by
    show (List.replicate (493 * 493 * 493 % 2 ^ 32) (F32.finite 0)).length = _
    rw [List.length_replicate]
    decide
  have hq : ∀ a ∈ List.range (vol (VoxelGrid.new 493)),
      qualifies (VoxelGrid.new 493) (F32.finite 0) a = true := by
    intro a _
    unfold qualifies
    have hz : (VoxelGrid.new 493).data.getD a (F32.finite 0) = F32.finite 0 :=
      replicate_getD (F32.finite 0) (493 * 493 * 493 % 2 ^ 32) a
    rw [hz]
    rfl
  have hc : (List.range (vol (VoxelGrid.new 493))).countP
      (qualifies (VoxelGrid.new 493) (F32.finite 0)) = 119823157 := by
    rw [List.countP_eq_length.2 hq, List.length_range, hvol]
  have hverts : (meshVerts (VoxelGrid.new 493) (F32.finite 0)).length = 4313633652 := by
    rw [meshVerts_length, hc]
  refine ⟨?_, hverts, ?_, by decide⟩
  · unfold create_mesh
    rw [hvol, hlen]
    simp
  · unfold meshIndices
    rw [List.length_range, hverts]
    decide

/-- C2: the code contradicts its own `// Bottom` comment.  On an isolated
qualifying cell (`size = 1`, sample `0.0`, threshold `0.0` — all 36
vertices come from this one cell), the bottom face's FIRST triangle
(vertices 18–20) is `(x, y, z−1), (x, y, z), (x−1, y−1, z)`: its vertices
do not share a `y` (it does not lie on the bottom plane `y−1`), and its
normal is perpendicular to the centre-to-centroid direction (dot product
`0`, not positive), so the claimed outward-facing-face property fails for
the bottom face.  The other five faces and the second bottom triangle do
lie on their planes; the `y` coordinates of vertices 18 and 19 are a slip
for `y − 1`. -/
theorem C2_bottom_face_bug :
    meshVerts (VoxelGrid.new 1) (F32.finite 0) = cubeVerts 1 0 ∧
    (cubeVerts 1 0).getD 18 ⟨0, 0, 0⟩ = ⟨-1/2, -1/2, -3/2⟩ ∧
    (cubeVerts 1 0).getD 19 ⟨0, 0, 0⟩ = ⟨-1/2, -1/2, -1/2⟩ ∧
    (cubeVerts 1 0).getD 20 ⟨0, 0, 0⟩ = ⟨-3/2, -3/2, -1/2⟩ ∧
    dot (triNormal ⟨-1/2, -1/2, -3/2⟩ ⟨-1/2, -1/2, -1/2⟩ ⟨-3/2, -3/2, -1/2⟩)
      (vsub (centroid3 ⟨-1/2, -1/2, -3/2⟩ ⟨-1/2, -1/2, -1/2⟩ ⟨-3/2, -3/2, -1/2⟩)
        (cubeCenter 1 0)) = 0 ∧
    ((cubeVerts 1 0).getD 18 ⟨0, 0, 0⟩).y ≠ ((cubeVerts 1 0).getD 20 ⟨0, 0, 0⟩).y := by
  refine ⟨rfl, ?_, ?_, ?_, ?_, ?_⟩
  · show (⟨((0 % 1 : Nat) : ℚ) + -((1 : ℚ) / 2),
        ((0 / 1 % 1 : Nat) : ℚ) + -((1 : ℚ) / 2),
        ((0 / (1 * 1 % 2 ^ 32) % 1 : Nat) : ℚ) + -((1 : ℚ) / 2) - 1⟩ : Vec3) = _
    norm_num
  · show (⟨((0 % 1 : Nat) : ℚ) + -((1 : ℚ) / 2),
        ((0 / 1 % 1 : Nat) : ℚ) + -((1 : ℚ) / 2),
        ((0 / (1 * 1 % 2 ^ 32) % 1 : Nat) : ℚ) + -((1 : ℚ) / 2)⟩ : Vec3) = _
    norm_num
  · show (⟨((0 % 1 : Nat) : ℚ) + -((1 : ℚ) / 2) - 1,
        ((0 / 1 % 1 : Nat) : ℚ) + -((1 : ℚ) / 2) - 1,
        ((0 / (1 * 1 % 2 ^ 32) % 1 : Nat) : ℚ) + -((1 : ℚ) / 2)⟩ : Vec3) = _
    norm_num
  · norm_num [dot, triNormal, cross, vsub, centroid3, cubeCenter]
  · show (((0 / 1 % 1 : Nat) : ℚ) + -((1 : ℚ) / 2)) ≠
      (((0 / 1 % 1 : Nat) : ℚ) + -((1 : ℚ) / 2) - 1)
    norm_num

end Marchy
